import Mathlib

/-!
Verification of the torchflower repository: a shallow embedding of
`src/guard.ts` (runtime validators) and `src/router.ts` (the route table and
the `Torchflower` server object), with theorems settling the spec claims.

JavaScript runtime values are modelled by the inductive `JSValue`; functions
and objects are opaque ids.  A TypeScript validator `(value: unknown) => T`
either returns a value or throws, so it is embedded as
`JSValue → Except JSErr JSValue`, where `JSErr` is the (optional) message of
the thrown `Error`.
-/

/-- Model of a JavaScript runtime value.  `null` and `undefined` are distinct;
`nan` is the floating NaN (typeof "number", falsy); functions and plain
objects are opaque, identified by a tag. -/
inductive JSValue : Type
  | undef
  | null
  | bool (b : Bool)
  | num (n : Int)
  | nan
  | str (s : String)
  | bigintVal (n : Int)
  | fn (id : Nat)
  | obj (id : Nat)
  deriving DecidableEq

/-- JavaScript truthiness: `undefined`, `null`, `false`, `0`, `NaN`, `""` and
`0n` are falsy; everything else is truthy. -/
def truthy : JSValue → Bool
  | .undef => false
  | .null => false
  | .bool b => b
  | .num n => n != 0
  | .nan => false
  | .str s => s != ""
  | .bigintVal n => n != 0
  | .fn _ => true
  | .obj _ => true

/-- JavaScript `typeof`.  Note the well-known quirk `typeof null == "object"`. -/
def typeof : JSValue → String
  | .undef => "undefined"
  | .null => "object"
  | .bool _ => "boolean"
  | .num _ => "number"
  | .nan => "number"
  | .str _ => "string"
  | .bigintVal _ => "bigint"
  | .fn _ => "function"
  | .obj _ => "object"

/-- A thrown `Error`: its optional message (`new Error(msg)` with
`msg?: string`). -/
abbrev JSErr := Option String

/-- A validator `(value: unknown) => T`: returns a narrowed value or throws. -/
abbrev Validator := JSValue → Except JSErr JSValue

instance {ε α : Type} [DecidableEq ε] [DecidableEq α] : DecidableEq (Except ε α) := fun x y =>
  match x, y with
  | .error a, .error b =>
    if h : a = b then .isTrue (by rw [h])
    else .isFalse (by intro hc; cases hc; exact h rfl)
  | .error _, .ok _ => .isFalse (by intro hc; cases hc)
  | .ok _, .error _ => .isFalse (by intro hc; cases hc)
  | .ok a, .ok b =>
    if h : a = b then .isTrue (by rw [h])
    else .isFalse (by intro hc; cases hc; exact h rfl)

namespace Guard

/-- `assert(condition, msg)` from guard.ts lines 14-16:
`if (condition === false) throw new Error(msg)`.  The condition is an
arbitrary value; only strict equality with the boolean `false` throws. -/
def assert (condition : JSValue) (msg : Option String) : Except JSErr Unit :=
  if condition = JSValue.bool false then Except.error msg else Except.ok ()

/-- `string(value)`: `assert(typeof value == "string"); return value`. -/
def string (value : JSValue) : Except JSErr JSValue :=
  (assert (JSValue.bool (typeof value == "string")) none).map fun _ => value

/-- `number(value)`: `assert(typeof value == "number"); return value`. -/
def number (value : JSValue) : Except JSErr JSValue :=
  (assert (JSValue.bool (typeof value == "number")) none).map fun _ => value

/-- `bigint(value)`: `assert(typeof value == "bigint"); return value`. -/
def bigint (value : JSValue) : Except JSErr JSValue :=
  (assert (JSValue.bool (typeof value == "bigint")) none).map fun _ => value

/-- `boolean(value)`: `assert(typeof value == "boolean"); return value`. -/
def boolean (value : JSValue) : Except JSErr JSValue :=
  (assert (JSValue.bool (typeof value == "boolean")) none).map fun _ => value

/-- `callback(value)`: `assert(typeof value == "function"); return value`. -/
def callback (value : JSValue) : Except JSErr JSValue :=
  (assert (JSValue.bool (typeof value == "function")) none).map fun _ => value

/-- `object(value)`: `assert(typeof value == "object"); return value as Object`.
Note: `typeof null == "object"`, so `null` passes this assertion. -/
def object (value : JSValue) : Except JSErr JSValue :=
  (assert (JSValue.bool (typeof value == "object")) none).map fun _ => value

/-- `check(guard)` from guard.ts lines 181-191: wraps `guard` in try/catch,
returning the narrowed value on success or `null` on any thrown failure.
Its result type is a plain `JSValue` (total function): it never throws. -/
def check (guard : Validator) (value : JSValue) : JSValue :=
  match guard value with
  | .ok t => t
  | .error _ => JSValue.null

/-- `or(lhs, rhs)` from guard.ts lines 60-75: runs `check(lhs)` on the value;
if that result is truthy returns `value` (the original input, `value as any`);
otherwise runs `check(rhs)`; if that result is truthy returns `value`;
otherwise throws `Error("Union check failed")`. -/
def or (lhs rhs : Validator) (value : JSValue) : Except JSErr JSValue :=
  let lhs_result := check lhs value
  if truthy lhs_result then Except.ok value
  else
    let rhs_result := check rhs value
    if truthy rhs_result then Except.ok value
    else Except.error (some "Union check failed")

/-- `optional(guard)` from guard.ts lines 107-114:
`if (!value) return undefined; return guard(value)`. -/
def optional (guard : Validator) (value : JSValue) : Except JSErr JSValue :=
  if !truthy value then Except.ok JSValue.undef else guard value

/-- `record(guard)` from guard.ts lines 1-7: `guard(object(value))` — the
`object` assertion runs first and its thrown failure propagates; on success
`guard` is applied to its (unchanged) result. -/
def record (guard : Validator) (value : JSValue) : Except JSErr JSValue :=
  (object value).bind guard

end Guard

/-! ## Router (src/router.ts)

A JS `Map` is modelled as an insertion-ordered association list: `set` on an
existing key replaces in place, otherwise appends.  Route handlers are opaque
values of an abstract type `H`; `handle` takes an environment `exec`
interpreting a handler on a request, so "no handler is invoked" is expressed
as independence from `exec`.  At runtime TS method strings are ordinary
strings (`req.method as any`), so map keys are `String`. -/

def alGet {K V : Type} [BEq K] : List (K × V) → K → Option V
  | [], _ => none
  | (k0, v0) :: rest, k => if k0 == k then some v0 else alGet rest k

def alHas {K V : Type} [BEq K] (l : List (K × V)) (k : K) : Bool :=
  (alGet l k).isSome

def alSet {K V : Type} [BEq K] : List (K × V) → K → V → List (K × V)
  | [], k, v => [(k, v)]
  | (k0, v0) :: rest, k, v =>
    if k0 == k then (k0, v) :: rest else (k0, v0) :: alSet rest k v

/-- The `Router` class: `routes: Map<Method, Map<string, handler>>`. -/
structure Router (H : Type) where
  routes : List (String × List (String × H))
  deriving DecidableEq

/-- Two-level lookup: the handler registered for `(method, path)`, if any. -/
def Router.lookup {H : Type} (r : Router H) (method path : String) : Option H :=
  (alGet r.routes method).bind fun inner => alGet inner path

/-- `Router.route` from router.ts lines 8-21: ensures the method's inner map
exists, rejects a duplicate path with `false`, otherwise stores the handler
and returns `true`.  Returns the updated router alongside the boolean. -/
def Router.route {H : Type} (r : Router H) (method : String) (route : String)
    (handler : H) : Bool × Router H :=
  let routes := match alGet r.routes method with
    | some inner => inner
    | none => []
  if alHas routes route then (false, r)
  else (true, ⟨alSet r.routes method (alSet routes route handler)⟩)

/-- An inbound request: its method string and the exact path of its URL
(`new URL(req.url).pathname`, the platform's URL parse being external). -/
structure Request where
  method : String
  pathname : String
  deriving DecidableEq

/-- A `Response`: body, status and status text.  `new Response(body)` with no
init uses the platform defaults, status 200 with empty status text. -/
structure JSResponse where
  body : String
  status : Nat
  statusText : String
  deriving DecidableEq

/-- `new Response("404 INVALID")` from router.ts lines 25 and 28. -/
def notFoundResponse : JSResponse := ⟨"404 INVALID", 200, ""⟩

/-- `Router.handle` from router.ts lines 23-32: looks up the method's table
(missing → 404 response), then the exact pathname (missing → 404 response),
otherwise invokes the matched handler on the request and returns its result. -/
def Router.handle {H : Type} (r : Router H) (exec : H → Request → JSResponse)
    (req : Request) : JSResponse :=
  match alGet r.routes req.method with
  | none => notFoundResponse
  | some routes =>
    match alGet routes req.pathname with
    | none => notFoundResponse
    | some handler => exec handler req

/-! ## Torchflower server object (src/index.ts) -/

/-- The default error handler: a fixed 500 response. -/
def defaultErrorHandler : JSErr → JSResponse :=
  fun _ => ⟨"500 Internal Server Error", 500, "Internal Server Error"⟩

/-- The `Torchflower` class state: its router, error handler, server slot
(opaque) and listening flag. -/
structure Torchflower (H : Type) where
  router : Router H
  error_handler : JSErr → JSResponse
  server : Option Unit
  listening : Bool

/-- A fresh `new Torchflower()`: empty router, default 500 error handler, no
server, `listening = false`. -/
def Torchflower.new (H : Type) : Torchflower H :=
  ⟨⟨[]⟩, defaultErrorHandler, none, false⟩

/-- `Torchflower.set_error_handler`: `if (!this.listening) return;
this.error_handler = handler`. -/
def Torchflower.set_error_handler {H : Type} (t : Torchflower H)
    (handler : JSErr → JSResponse) : Torchflower H :=
  if !t.listening then t
  else ⟨t.router, handler, t.server, t.listening⟩

/-! ## Concrete instances used in counterexamples and witnesses -/

/-- A validator that succeeds on every input, narrowing it to the number 42. -/
def constNum42 : Validator := fun _ => Except.ok (JSValue.num 42)

/-- A validator that succeeds on every input, narrowing it to the number 7. -/
def constNum7 : Validator := fun _ => Except.ok (JSValue.num 7)

/-- A validator that succeeds on every input, narrowing it to the number 1. -/
def constNum1 : Validator := fun _ => Except.ok (JSValue.num 1)

/-- The identity validator: succeeds on every input, returning it unchanged. -/
def idValidator : Validator := fun v => Except.ok v

/-- A concrete router over `Nat` handler ids, with handler 1 at GET /a. -/
def router0 : Router Nat := ⟨[("GET", [("/a", 1)])]⟩

/-- A handler environment for `Nat` handler ids: handler `n` answers with
status `n`. -/
def execNat : Nat → Request → JSResponse := fun n req => ⟨req.pathname, n, ""⟩

/-- A second, everywhere-different handler environment. -/
def execNat2 : Nat → Request → JSResponse := fun n _ => ⟨"other", n + 1, "x"⟩

/-- A `Torchflower` state whose listening flag is already true. -/
def flowerListening : Torchflower Nat := ⟨⟨[]⟩, defaultErrorHandler, none, true⟩

/-- A concrete replacement error handler. -/
def teapotHandler : JSErr → JSResponse := fun _ => ⟨"teapot", 418, ""⟩

/-! ## Helper lemmas on association lists -/

theorem alGet_alSet_self {K V : Type} [BEq K] [LawfulBEq K]
    (l : List (K × V)) (k : K) (v : V) : alGet (alSet l k v) k = some v := by
  induction l with
  | nil => simp [alSet, alGet]
  | cons hd tl ih =>
    obtain ⟨k0, v0⟩ := hd
    cases h : (k0 == k) with
    | true => simp [alSet, alGet, h]
    | false => simp [alSet, alGet, h, ih]

theorem alGet_alSet_ne {K V : Type} [BEq K] [LawfulBEq K]
    (l : List (K × V)) (k k' : K) (v : V) (hne : k' ≠ k) :
    alGet (alSet l k v) k' = alGet l k' := by
  have hkk : (k == k') = false := beq_eq_false_iff_ne.mpr fun hc => hne hc.symm
  induction l with
  | nil => simp [alSet, alGet, hkk]
  | cons hd tl ih =>
    obtain ⟨k0, v0⟩ := hd
    cases h : (k0 == k) with
    | true =>
      have hk0 : k0 = k := eq_of_beq h
      subst hk0
      simp [alSet, alGet, h, hkk]
    | false => simp [alSet, alGet, h, ih]

/-! ## Guard engine theorems -/

/-- C3: `check(v)(x)` never throws (its embedding is a total function into
`JSValue`); when `v(x)` succeeds with `t`, `check(v)(x)` returns `t`
unchanged, and when `v(x)` throws any failure whatsoever, `check(v)(x)`
returns `null`. -/
theorem check_spec (g : Validator) (x : JSValue) :
    (∀ t, g x = Except.ok t → Guard.check g x = t) ∧
    (∀ e, g x = Except.error e → Guard.check g x = JSValue.null) := by
  unfold Guard.check
  constructor
  · intro t h
    rw [h]
  · intro e h
    rw [h]

/-- Witness for C3 at concrete inputs: `check(string)` passes `"a"` through
unchanged and maps the failure on `3` to `null`. -/
theorem check_spec_witness :
    Guard.check Guard.string (JSValue.str "a") = JSValue.str "a" ∧
    Guard.check Guard.string (JSValue.num 3) = JSValue.null :=
  ⟨(check_spec Guard.string (JSValue.str "a")).1 (JSValue.str "a") (by decide),
   (check_spec Guard.string (JSValue.num 3)).2 none (by decide)⟩

/-- C5: each primitive validator succeeds, returning its input unchanged,
exactly when the runtime type tag of the input matches its expected kind, and
throws otherwise; no coercion is performed (e.g. at `x = "5"`,
`typeof x = "string" ≠ "number"`, so `number("5")` throws). -/
theorem primitive_validators_spec (x : JSValue) :
    Guard.string x =
      (if typeof x == "string" then Except.ok x else Except.error none) ∧
    Guard.number x =
      (if typeof x == "number" then Except.ok x else Except.error none) ∧
    Guard.bigint x =
      (if typeof x == "bigint" then Except.ok x else Except.error none) ∧
    Guard.boolean x =
      (if typeof x == "boolean" then Except.ok x else Except.error none) ∧
    Guard.callback x =
      (if typeof x == "function" then Except.ok x else Except.error none) ∧
    Guard.object x =
      (if typeof x == "object" then Except.ok x else Except.error none) := by
  cases x <;>
    exact ⟨rfl, rfl, rfl, rfl, rfl, rfl⟩

/-- C6: `optional(g)` returns `undefined` without invoking `g` on every falsy
value (in particular on `undefined`): the result does not depend on `g` at
all there; on every truthy value it delegates to `g`, so `g`'s narrowed
result is returned on success and `g`'s thrown failure propagates. -/
theorem optional_spec (g g2 : Validator) (v : JSValue) :
    (truthy v = false →
      Guard.optional g v = Except.ok JSValue.undef ∧
      Guard.optional g v = Guard.optional g2 v) ∧
    (truthy v = true → Guard.optional g v = g v) := by
  unfold Guard.optional
  constructor
  · intro h
    rw [h]
    exact ⟨rfl, rfl⟩
  · intro h
    rw [h]
    rfl

/-- Witness for C6 at concrete inputs: `optional(string)(undefined)` is
`undefined`; on the truthy `"a"` it delegates to `string` (success), and on
the truthy `3` the delegated failure propagates. -/
theorem optional_spec_witness :
    Guard.optional Guard.string JSValue.undef = Except.ok JSValue.undef ∧
    Guard.optional Guard.string (JSValue.str "a") = Except.ok (JSValue.str "a") ∧
    Guard.optional Guard.string (JSValue.num 3) = Except.error none :=
  ⟨((optional_spec Guard.string Guard.number JSValue.undef).1 (by decide)).1,
   ((optional_spec Guard.string Guard.number (JSValue.str "a")).2 (by decide)).trans
     (by decide),
   ((optional_spec Guard.string Guard.number (JSValue.num 3)).2 (by decide)).trans
     (by decide)⟩

/-- C9: `assert(condition, msg)` throws exactly when the condition is
strictly equal to the boolean `false`; every other falsy condition value
(such as `0`, `""`, `null`, `undefined`, `NaN`) passes silently. -/
theorem assert_spec (c : JSValue) (msg : Option String) :
    ((∃ e, Guard.assert c msg = Except.error e) ↔ c = JSValue.bool false) ∧
    (truthy c = false → c ≠ JSValue.bool false →
      Guard.assert c msg = Except.ok ()) := by
  unfold Guard.assert
  constructor
  · constructor
    · rintro ⟨e, he⟩
      by_cases h : c = JSValue.bool false
      · exact h
      · simp [h] at he
    · intro h
      exact ⟨msg, by simp [h]⟩
  · intro _ h2
    simp [h2]

/-- Witness for C9: `assert` passes on the falsy values `0`, `""`, `null`,
`undefined` and `NaN`, and throws on the boolean `false`. -/
theorem assert_spec_witness :
    Guard.assert (JSValue.num 0) none = Except.ok () ∧
    Guard.assert (JSValue.str "") none = Except.ok () ∧
    Guard.assert JSValue.null none = Except.ok () ∧
    Guard.assert JSValue.undef none = Except.ok () ∧
    Guard.assert JSValue.nan none = Except.ok () ∧
    Guard.assert (JSValue.bool false) (some "boom") = Except.error (some "boom") :=
  ⟨(assert_spec (JSValue.num 0) none).2 (by decide) (by decide),
   (assert_spec (JSValue.str "") none).2 (by decide) (by decide),
   (assert_spec JSValue.null none).2 (by decide) (by decide),
   (assert_spec JSValue.undef none).2 (by decide) (by decide),
   (assert_spec JSValue.nan none).2 (by decide) (by decide),
   by decide⟩

/-- C1 counterexample: with `a` narrowing every input to the truthy value
`42` and `b` narrowing to `7`, on input `"hi"` both branches succeed with
different truthy values, yet `or(a, b)("hi")` returns the original input
`"hi"` — not the left branch's value `42` as the claim states. -/
theorem or_cex :
    Guard.check constNum42 (JSValue.str "hi") = JSValue.num 42 ∧
    truthy (JSValue.num 42) = true ∧
    Guard.or constNum42 constNum7 (JSValue.str "hi") = Except.ok (JSValue.str "hi") ∧
    Guard.or constNum42 constNum7 (JSValue.str "hi") ≠ Except.ok (JSValue.num 42) :=
  ⟨by decide, by decide, by decide, by decide⟩

/-- C1 (amended): `or(a, b)(x)` evaluates `a` first through the non-throwing
`check` adapter; if that result is truthy, the ORIGINAL INPUT `x` is returned
(equal to the left branch's value exactly when `a` returns its input
unchanged) and `b` plays no role (the result is the same for every `b`);
otherwise, if `b`'s checked result is truthy, `x` is returned; if neither
checked result is truthy, the call throws `Error("Union check failed")`. -/
theorem or_spec (a b b2 : Validator) (x : JSValue) :
    (truthy (Guard.check a x) = true →
      Guard.or a b x = Except.ok x ∧ Guard.or a b x = Guard.or a b2 x) ∧
    (truthy (Guard.check a x) = false → truthy (Guard.check b x) = true →
      Guard.or a b x = Except.ok x) ∧
    (truthy (Guard.check a x) = false → truthy (Guard.check b x) = false →
      Guard.or a b x = Except.error (some "Union check failed")) := by
  unfold Guard.or
  refine ⟨fun h => ?_, fun h1 h2 => ?_, fun h1 h2 => ?_⟩
  · simp [h]
  · simp [h1, h2]
  · simp [h1, h2]

/-- Witness for C1 (amended) at concrete inputs: the left branch wins on a
string, the right branch catches a number, and two failing branches throw. -/
theorem or_spec_witness :
    Guard.or Guard.string Guard.number (JSValue.str "a") =
      Except.ok (JSValue.str "a") ∧
    Guard.or Guard.string Guard.number (JSValue.num 3) =
      Except.ok (JSValue.num 3) ∧
    Guard.or Guard.string Guard.number (JSValue.bool true) =
      Except.error (some "Union check failed") :=
  ⟨((or_spec Guard.string Guard.number Guard.bigint (JSValue.str "a")).1
      (by decide)).1,
   (or_spec Guard.string Guard.number Guard.bigint (JSValue.num 3)).2.1
      (by decide) (by decide),
   (or_spec Guard.string Guard.number Guard.bigint (JSValue.bool true)).2.2
      (by decide) (by decide)⟩

/-- C2: when the left branch succeeds but narrows to a falsy value, `or`
swallows that success — its result is exactly the right-branch-only
behavior: `x` if `b`'s checked result is truthy, a thrown
`Error("Union check failed")` otherwise. -/
theorem or_falsy_swallow (a b : Validator) (x r : JSValue)
    (ha : a x = Except.ok r) (hr : truthy r = false) :
    Guard.or a b x =
      (if truthy (Guard.check b x) then Except.ok x
       else Except.error (some "Union check failed")) := by
  have hc : Guard.check a x = r := by
    unfold Guard.check
    rw [ha]
  unfold Guard.or
  simp [hc, hr]

/-- Witness for C2 at the claim's input: `a` legitimately narrows `0` to the
falsy `0`, yet `or(a, string)(0)` ignores that success, falls through to the
failing `string` branch and throws. -/
theorem or_falsy_swallow_witness :
    idValidator (JSValue.num 0) = Except.ok (JSValue.num 0) ∧
    truthy (JSValue.num 0) = false ∧
    Guard.or idValidator Guard.string (JSValue.num 0) =
      Except.error (some "Union check failed") :=
  ⟨by decide, by decide,
   (or_falsy_swallow idValidator Guard.string (JSValue.num 0) (JSValue.num 0)
      (by decide) (by decide)).trans (by decide)⟩

/-- C4 counterexample: on the input `null` the `object` assertion in
`record` SUCCEEDS (`typeof null == "object"`), and the supplied guard IS
invoked — `record` returns the guard's value instead of throwing, contrary
to the claim that `null` is rejected before the guard runs. -/
theorem record_cex :
    typeof JSValue.null = "object" ∧
    Guard.record constNum1 JSValue.null = Except.ok (JSValue.num 1) :=
  ⟨rfl, by decide⟩

/-- C4 (amended): `record(guard)(value)` first asserts
`typeof value == "object"` — which rejects every primitive, `undefined` and
functions, but ACCEPTS `null`; when the assertion fails the call throws and
`guard` is never invoked (the result is the same for every guard); when it
succeeds — including on `null` — `guard` is invoked on the unchanged value
and its result (or thrown failure) is `record`'s result. -/
theorem record_spec (g g2 : Validator) (v : JSValue) :
    (typeof v ≠ "object" →
      Guard.record g v = Except.error none ∧
      Guard.record g v = Guard.record g2 v) ∧
    (typeof v = "object" → Guard.record g v = g v) := by
  constructor
  · intro h
    have hb : (typeof v == "object") = false := beq_eq_false_iff_ne.mpr h
    constructor <;>
      simp [Guard.record, Guard.object, Guard.assert, hb, Except.map, Except.bind]
  · intro h
    have hb : (typeof v == "object") = true := beq_iff_eq.mpr h
    simp [Guard.record, Guard.object, Guard.assert, hb, Except.map, Except.bind]

/-- Witness for C4 (amended): a string input makes `record` throw before the
guard runs; an object input reaches the guard. -/
theorem record_spec_witness :
    typeof (JSValue.str "x") ≠ "object" ∧
    Guard.record constNum1 (JSValue.str "x") = Except.error none ∧
    Guard.record constNum1 (JSValue.obj 0) = Except.ok (JSValue.num 1) :=
  ⟨by decide,
   ((record_spec constNum1 constNum7 (JSValue.str "x")).1 (by decide)).1,
   ((record_spec constNum1 constNum7 (JSValue.obj 0)).2 (by decide)).trans
     (by decide)⟩

/-- C7: registering a handler for a `(method, path)` pair that already has an
entry returns `false` and leaves the route table completely unchanged (the
first handler remains bound); registering for a pair with no existing entry
returns `true`, stores the handler under that pair, and leaves every other
pair's entry unchanged. -/
theorem route_spec {H : Type} (r : Router H) (m p : String) (h : H) :
    (∀ h0, r.lookup m p = some h0 → r.route m p h = (false, r)) ∧
    (r.lookup m p = none →
      (r.route m p h).1 = true ∧
      (r.route m p h).2.lookup m p = some h ∧
      ∀ m' p', ¬(m' = m ∧ p' = p) →
        (r.route m p h).2.lookup m' p' = r.lookup m' p') := by
  cases hm : alGet r.routes m with
  | none =>
    have hroute : r.route m p h = (true, ⟨alSet r.routes m [(p, h)]⟩) := by
      unfold Router.route
      simp [hm, alHas, alGet, alSet]
    constructor
    · intro h0 hl
      unfold Router.lookup at hl
      rw [hm] at hl
      simp at hl
    · intro _
      refine ⟨by rw [hroute], ?_, ?_⟩
      · rw [hroute]
        simp [Router.lookup, alGet_alSet_self, alGet]
      · intro m' p' hne
        rw [hroute]
        unfold Router.lookup
        by_cases hm' : m' = m
        · subst hm'
          rw [alGet_alSet_self, hm]
          have hp' : p' ≠ p := fun hc => hne ⟨rfl, hc⟩
          simp [alGet, beq_eq_false_iff_ne.mpr fun hc => hp' hc.symm]
        · rw [alGet_alSet_ne _ _ _ _ hm']
  | some inner =>
    cases hp : alGet inner p with
    | some h0 =>
      have hroute : r.route m p h = (false, r) := by
        unfold Router.route
        simp [hm, alHas, hp]
      constructor
      · intro _ _
        exact hroute
      · intro hl
        unfold Router.lookup at hl
        rw [hm] at hl
        simp [hp] at hl
    | none =>
      have hroute :
          r.route m p h = (true, ⟨alSet r.routes m (alSet inner p h)⟩) := by
        unfold Router.route
        simp [hm, alHas, hp]
      constructor
      · intro h0 hl
        unfold Router.lookup at hl
        rw [hm] at hl
        simp [hp] at hl
      · intro _
        refine ⟨by rw [hroute], ?_, ?_⟩
        · rw [hroute]
          simp [Router.lookup, alGet_alSet_self]
        · intro m' p' hne
          rw [hroute]
          unfold Router.lookup
          by_cases hm' : m' = m
          · subst hm'
            rw [alGet_alSet_self, hm]
            have hp' : p' ≠ p := fun hc => hne ⟨rfl, hc⟩
            simp [alGet_alSet_ne inner p p' h hp']
          · rw [alGet_alSet_ne _ _ _ _ hm']

/-- Witness for C7 at a concrete table: re-registering GET /a is rejected
with the table unchanged; registering the fresh GET /b succeeds, stores
handler 2 there and keeps handler 1 at GET /a. -/
theorem route_spec_witness :
    router0.route "GET" "/a" 2 = (false, router0) ∧
    (router0.route "GET" "/b" 2).1 = true ∧
    (router0.route "GET" "/b" 2).2.lookup "GET" "/b" = some 2 ∧
    (router0.route "GET" "/b" 2).2.lookup "GET" "/a" = some 1 :=
  ⟨(route_spec router0 "GET" "/a" 2).1 1 (by decide),
   ((route_spec router0 "GET" "/b" 2).2 (by decide)).1,
   ((route_spec router0 "GET" "/b" 2).2 (by decide)).2.1,
   (((route_spec router0 "GET" "/b" 2).2 (by decide)).2.2 "GET" "/a"
      (by decide)).trans (by decide)⟩

/-- C8: when the request's method has no registered routes, or the exact path
of the request's URL has no handler under that method, `handle` returns the
fixed not-found response without invoking any handler (the result is the same
under every handler interpretation) and without throwing (it is a total
function); when a handler is registered for that exact pair, `handle` invokes
exactly that handler on the request and returns its result directly. -/
theorem handle_spec {H : Type} (r : Router H)
    (exec exec2 : H → Request → JSResponse) (req : Request) :
    (r.lookup req.method req.pathname = none →
      r.handle exec req = notFoundResponse ∧
      r.handle exec req = r.handle exec2 req) ∧
    (∀ h, r.lookup req.method req.pathname = some h →
      r.handle exec req = exec h req) := by
  unfold Router.handle Router.lookup
  cases hm : alGet r.routes req.method with
  | none => simp [hm]
  | some routes =>
    cases hp : alGet routes req.pathname with
    | none => simp [hm, hp]
    | some h0 => simp [hm, hp]

/-- Witness for C8 at a concrete table: GET /a dispatches to handler 1's
result; an unregistered method and an unregistered path both give the fixed
not-found response, independently of the handler environment. -/
theorem handle_spec_witness :
    router0.handle execNat ⟨"GET", "/a"⟩ = execNat 1 ⟨"GET", "/a"⟩ ∧
    router0.handle execNat ⟨"POST", "/a"⟩ = notFoundResponse ∧
    router0.handle execNat ⟨"POST", "/a"⟩ =
      router0.handle execNat2 ⟨"POST", "/a"⟩ ∧
    router0.handle execNat ⟨"GET", "/b"⟩ = notFoundResponse :=
  ⟨(handle_spec router0 execNat execNat2 ⟨"GET", "/a"⟩).2 1 (by decide),
   ((handle_spec router0 execNat execNat2 ⟨"POST", "/a"⟩).1 (by decide)).1,
   ((handle_spec router0 execNat execNat2 ⟨"POST", "/a"⟩).1 (by decide)).2,
   ((handle_spec router0 execNat execNat2 ⟨"GET", "/b"⟩).1 (by decide)).1⟩

/-- C10: `set_error_handler` never changes the router, server or listening
fields; when the listening flag is false (as before `serve()`) it returns
with the whole state unchanged, so on a fresh instance the default 500 error
handler remains in effect; only when the flag is already true does it replace
the stored error handler. -/
theorem set_error_handler_spec {H : Type} (t : Torchflower H)
    (handler : JSErr → JSResponse) :
    ((t.set_error_handler handler).router = t.router ∧
     (t.set_error_handler handler).server = t.server ∧
     (t.set_error_handler handler).listening = t.listening) ∧
    (t.listening = false → t.set_error_handler handler = t) ∧
    (t.listening = true →
      (t.set_error_handler handler).error_handler = handler) ∧
    ((Torchflower.new H).set_error_handler handler).error_handler =
      defaultErrorHandler := by
  unfold Torchflower.set_error_handler
  refine ⟨?_, fun hf => ?_, fun ht => ?_, ?_⟩
  · cases hl : t.listening <;> simp [hl]
  · simp [hf]
  · simp [ht]
  · rfl

/-- Witness for C10 at concrete states: on a fresh (non-listening) instance
the call is a no-op and the default handler stays; on a listening instance
the handler is replaced. -/
theorem set_error_handler_spec_witness :
    (Torchflower.new Nat).set_error_handler teapotHandler = Torchflower.new Nat ∧
    (flowerListening.set_error_handler teapotHandler).error_handler =
      teapotHandler ∧
    ((Torchflower.new Nat).set_error_handler teapotHandler).error_handler =
      defaultErrorHandler :=
  ⟨(set_error_handler_spec (Torchflower.new Nat) teapotHandler).2.1 rfl,
   (set_error_handler_spec flowerListening teapotHandler).2.2.1 rfl,
   (set_error_handler_spec flowerListening teapotHandler).2.2.2⟩
